import Mathlib

/-!
Shallow embedding of the SVSM vsock transport layer
(`src/kernel/src/vsock/mod.rs`, `src/kernel/src/vsock/virtio_vsock.rs`).

The device-facing collaborators (the virtio-drivers connection manager and
the MMIO slot discovery) are out of scope of the repository and are modelled
as oracles: deterministic functions or explicit traces recording what the
device returned at each interaction.  All driver logic (port allocation,
connect / recv / send loops, error translation, registry initialization) is
translated directly from the Rust source.
-/

namespace Vsock

/-! ## Error taxonomy -/

/-- The socket-level error space of the external virtio engine
(`virtio_drivers::device::socket::SocketError`).  The three variants named
in the driver's translation table are modelled explicitly; every other
variant of the engine's enum is collapsed into an opaque `Other` code. -/
inductive SocketError where
  | ConnectionExists
  | NotConnected
  | PeerSocketShutdown
  | Other (code : Nat)
deriving DecidableEq, Repr

/-- The error space of the external virtio engine (`virtio_drivers::Error`):
either a socket-device error or some other engine error (opaque code). -/
inductive VirtioDriversError where
  | SocketDeviceError (e : SocketError)
  | Other (code : Nat)
deriving DecidableEq, Repr

/-- Modelled from the spec: the vsock error kinds of `vsock/error.rs`
(not under `src/`), as enumerated in spec section 7. -/
inductive VsockError where
  | NoPortsAvailable
  | ConnectionExists
  | NotConnected
  | PeerSocketShutdown
  | DriverError
  | Failed
  | ConnectFailed
  | RecvFailed
  | SendFailed
deriving DecidableEq, Repr

/-- The kernel-wide error type (`SvsmError`), restricted to the variants the
vsock subsystem produces: a vsock error, the initialize-once cell's
already-initialized failure, and other kernel errors kept opaque. -/
inductive SvsmError where
  | Vsock (e : VsockError)
  | AlreadyInitialized
  | Other (code : Nat)
deriving DecidableEq, Repr

/-- Equality of `Except` values is decidable when it is on both components;
used to evaluate the models on concrete inputs. -/
def exceptDecEq {ε α : Type} [DecidableEq ε] [DecidableEq α] :
    (a b : Except ε α) → Decidable (a = b)
  | .ok a, .ok b =>
    if h : a = b then .isTrue (by rw [h]) else .isFalse (by simp [h])
  | .ok _, .error _ => .isFalse (by simp)
  | .error _, .ok _ => .isFalse (by simp)
  | .error e, .error f =>
    if h : e = f then .isTrue (by rw [h]) else .isFalse (by simp [h])

instance {ε α : Type} [DecidableEq ε] [DecidableEq α] : DecidableEq (Except ε α) :=
  exceptDecEq

/-- `impl From<virtio_drivers::Error> for VsockError`
(`virtio_vsock.rs`): the three named socket-device errors map to the
same-named vsock error; everything else maps to `DriverError`. -/
def vsockErrorFrom : VirtioDriversError → VsockError
  | .SocketDeviceError .ConnectionExists => .ConnectionExists
  | .SocketDeviceError .NotConnected => .NotConnected
  | .SocketDeviceError .PeerSocketShutdown => .PeerSocketShutdown
  | _ => .DriverError

/-! ## Port allocator (`VsockDriver::get_first_free_port`, `mod.rs`) -/

/-- `VSOCK_MIN_PORT`: ports below 1024 are reserved. -/
def VSOCK_MIN_PORT : Nat := 1024

/-- `MAX_RETRIES`: number of maximum retries to get a local free port. -/
def MAX_RETRIES : Nat := 5

/-- `u32::MAX` as a natural number. -/
def U32_MAX : Nat := 2 ^ 32 - 1

/-- The closure passed to `fetch_update`: given the current cursor value,
the new stored value is `VSOCK_MIN_PORT` if the current value is at or past
`u32::MAX - 1`, else the current value plus one. -/
def portStep (port : Nat) : Nat :=
  if U32_MAX - 1 ≤ port then VSOCK_MIN_PORT else port + 1

/-- One `fetch_update` on the cursor: the first component is the value the
call returns to the caller (the previous value, per `AtomicU32::fetch_update`
semantics), the second is the new stored cursor value. -/
def allocAttempt (cursor : Nat) : Nat × Nat :=
  (cursor, portStep cursor)

/-- The retry loop of `get_first_free_port`, with the transport's
`is_local_port_used` supplied as an oracle `used`.  Returns the result, the
final cursor value, and the list of candidate ports queried, in order. -/
def allocLoop (used : Nat → Except SvsmError Bool) (cursor : Nat) :
    Nat → Except SvsmError Nat × Nat × List Nat
  | 0 => (.error (.Vsock .NoPortsAvailable), cursor, [])
  | fuel + 1 =>
    let att := allocAttempt cursor
    match used att.1 with
    | .error e => (.error e, att.2, [att.1])
    | .ok true =>
      let rec' := allocLoop used att.2 fuel
      (rec'.1, rec'.2.1, att.1 :: rec'.2.2)
    | .ok false => (.ok att.1, att.2, [att.1])

/-- `VsockDriver::get_first_free_port` (`mod.rs`). -/
def get_first_free_port (used : Nat → Except SvsmError Bool) (cursor : Nat) :
    Except SvsmError Nat × Nat × List Nat :=
  allocLoop used cursor MAX_RETRIES

/-- A sequence of calls to `get_first_free_port`, each with its own
`is_local_port_used` oracle, threading the cursor; pairs each call's oracle
with its result. -/
def allocSeq (oracles : List (Nat → Except SvsmError Bool)) (cursor : Nat) :
    List ((Nat → Except SvsmError Bool) × Except SvsmError Nat) :=
  match oracles with
  | [] => []
  | o :: os =>
    let call := get_first_free_port o cursor
    (o, call.1) :: allocSeq os call.2.1

/-! ## The recv loop (`VirtIOVsockDriver::recv`, `virtio_vsock.rs`) -/

/-- Outcome of a blocking transport operation over a finite device trace:
it terminates with a value, terminates with an error, or the trace ends
while the loop would continue (the source loop would keep blocking). -/
inductive Outcome where
  | ok (n : Nat)
  | err (e : SvsmError)
  | diverge
deriving DecidableEq, Repr

/-- What the device returned during one iteration of the `recv` loop:
the result of `dev.recv` into `buffer[total_received..]`, of
`dev.update_credit`, and of `dev.wait_for_event`.  Fields the source does
not reach in a given iteration are simply unused. -/
structure RecvIter where
  drain : Except VirtioDriversError Nat
  credit : Except VirtioDriversError Unit
  wait : Except VirtioDriversError Unit

/-- A device operation issued by the driver, as recorded in an operation
log: a drain into a slice of the given remaining capacity, a credit update,
or a blocking wait for a device event. -/
inductive DevOp where
  | drain (capacity : Nat)
  | credit
  | wait
deriving DecidableEq, Repr

/-- The loop body of `VirtIOVsockDriver::recv`, translated iteration by
iteration over a device trace.  Returns the outcome together with the log
of device operations issued.  `bufLen` is `buffer.len()`, `total` is
`total_received`. -/
def recvLoop (bufLen : Nat) (total : Nat) : List RecvIter → Outcome × List DevOp
  | [] => (.diverge, [])
  | it :: rest =>
    match it.drain with
    | .error e =>
      (if 0 < total then .ok total else .err (.Vsock (vsockErrorFrom e)),
        [.drain (bufLen - total)])
    | .ok received =>
      match it.credit with
      | .error _ => (.ok (total + received), [.drain (bufLen - total), .credit])
      | .ok _ =>
        if total + received = bufLen then
          (.ok (total + received), [.drain (bufLen - total), .credit])
        else
          match it.wait with
          | .error e =>
            (.err (.Vsock (vsockErrorFrom e)),
              [.drain (bufLen - total), .credit, .wait])
          | .ok _ =>
            let cont := recvLoop bufLen (total + received) rest
            (cont.1, .drain (bufLen - total) :: .credit :: .wait :: cont.2)

/-- `VirtIOVsockDriver::recv`, starting with `total_received = 0`. -/
def vsockRecv (bufLen : Nat) (trace : List RecvIter) : Outcome × List DevOp :=
  recvLoop bufLen 0 trace

/-- Wellformedness of a device trace with respect to the destination buffer:
`dev.recv` into a slice writes at most the slice's length, so each
successful drain returns at most the remaining capacity
`bufLen - total` of `buffer[total..]`. -/
def traceBounded (bufLen : Nat) : Nat → List RecvIter → Bool
  | _, [] => true
  | total, it :: rest =>
    match it.drain with
    | .error _ => true
    | .ok received =>
      decide (received ≤ bufLen - total) && traceBounded bufLen (total + received) rest

/-! ## send (`VirtIOVsockDriver::send`, `virtio_vsock.rs`) -/

/-- `VirtIOVsockDriver::send`: a single locked `dev.send` of the whole
buffer; on device success it returns `Ok(buffer.len())`, on device error the
translated error.  The second component logs the buffers submitted to the
device. -/
def vsockSend (devSend : List Nat → Except VirtioDriversError Unit)
    (buffer : List Nat) : Except SvsmError Nat × List (List Nat) :=
  match devSend buffer with
  | .error e => (.error (.Vsock (vsockErrorFrom e)), [buffer])
  | .ok _ => (.ok buffer.length, [buffer])

/-! ## connect (`VirtIOVsockDriver::connect`, `virtio_vsock.rs`) -/

/-- A vsock address (`VsockAddr`): context id and port. -/
structure VsockAddr where
  cid : Nat
  port : Nat
deriving DecidableEq, Repr

/-- Outcome of `connect` over a finite device trace. -/
inductive COutcome where
  | ok
  | err (e : SvsmError)
  | diverge
deriving DecidableEq, Repr

/-- What the device returned during one iteration of the `connect` loop:
the result of `dev.wait_for_event`, and the per-flow result of
`dev.is_connection_established` as a function of the queried address and
local port (so the theorem can see which flow's status the driver checks). -/
structure ConnIter where
  wait : Except VirtioDriversError Unit
  estab : VsockAddr → Nat → Except VirtioDriversError Bool

/-- The wait/check loop of `VirtIOVsockDriver::connect` for the flow
identified by `addr` (remote cid, remote port) and `localPort`. -/
def connectLoop (addr : VsockAddr) (localPort : Nat) :
    List ConnIter → COutcome
  | [] => .diverge
  | it :: rest =>
    match it.wait with
    | .error e => .err (.Vsock (vsockErrorFrom e))
    | .ok _ =>
      match it.estab addr localPort with
      | .error e => .err (.Vsock (vsockErrorFrom e))
      | .ok true => .ok
      | .ok false => connectLoop addr localPort rest

/-- `VirtIOVsockDriver::connect`: submit the connection request for
`(remote_cid, remote_port)` / `local_port`, then run the wait/check loop. -/
def vsockConnect (submit : VsockAddr → Nat → Except VirtioDriversError Unit)
    (trace : List ConnIter) (remoteCid localPort remotePort : Nat) : COutcome :=
  let serverAddress : VsockAddr := ⟨remoteCid, remotePort⟩
  match submit serverAddress localPort with
  | .error e => .err (.Vsock (vsockErrorFrom e))
  | .ok _ => connectLoop serverAddress localPort trace

/-! ## Registry initialization (`initialize_vsock`, `virtio_vsock.rs`) -/

/-- An MMIO device slot of socket type, kept opaque. -/
structure MmioSlot where
  id : Nat
deriving DecidableEq, Repr

/-- The `VsockDriver` record of `mod.rs`: the free-port cursor and the
transport (kept opaque as a handle). -/
structure VsockDriver where
  first_free_port : Nat
  transport : Nat
deriving DecidableEq, Repr

/-- Modelled from the spec: `ImmutAfterInitCell::init`
(`utils/immut_after_init`, not under `src/`).  Per the source documentation
of `initialize_vsock`, initialization returns an error if the global vsock
device has already been initialized, and the registry is written exactly
once — the stored driver is never replaced. -/
def cellInit (cell : Option VsockDriver) (d : VsockDriver) :
    Except SvsmError Unit × Option VsockDriver :=
  match cell with
  | some old => (.error .AlreadyInitialized, some old)
  | none => (.ok (), some d)

/-- `initialize_vsock`: `popSlot` is the result of
`slots.pop_slot(Socket)`; `newTransport` is `VirtIOVsockDriver::new` on the
popped slot (it may fail); `cell` is the current content of the global
`VSOCK_DEVICE` registry.  Returns the call's result and the new registry
content. -/
def initialize_vsock (popSlot : Option MmioSlot)
    (newTransport : MmioSlot → Except SvsmError Nat)
    (cell : Option VsockDriver) :
    Except SvsmError Unit × Option VsockDriver :=
  match popSlot with
  | none => (.ok (), cell)
  | some slot =>
    match newTransport slot with
    | .error e => (.error e, cell)
    | .ok t => cellInit cell { first_free_port := VSOCK_MIN_PORT, transport := t }

/-! ## Helper lemmas -/

theorem allocLoop_all_used (used : Nat → Except SvsmError Bool)
    (h : ∀ p, used p = .ok true) (fuel : Nat) :
    ∀ cursor, (allocLoop used cursor fuel).1 = .error (.Vsock .NoPortsAvailable) ∧
      (allocLoop used cursor fuel).2.2.length = fuel := by
  induction fuel with
  | zero => intro cursor; exact ⟨rfl, rfl⟩
  | succ n ih =>
    intro cursor
    have hih := ih (portStep cursor)
    simp [allocLoop, allocAttempt, h cursor, hih.1, hih.2]

theorem allocLoop_query_error (used : Nat → Except SvsmError Bool) (e : SvsmError) :
    ∀ (k fuel cursor : Nat), k < fuel →
      (∀ i, i < k → used (portStep^[i] cursor) = .ok true) →
      used (portStep^[k] cursor) = .error e →
      (allocLoop used cursor fuel).1 = .error e ∧
      (allocLoop used cursor fuel).2.2.length = k + 1 := by
  intro k
  induction k with
  | zero =>
    intro fuel cursor hk hpre herr
    cases fuel with
    | zero => omega
    | succ f =>
      simp only [Function.iterate_zero, id_eq] at herr
      simp [allocLoop, allocAttempt, herr]
  | succ n ih =>
    intro fuel cursor hk hpre herr
    cases fuel with
    | zero => omega
    | succ f =>
      have h0 : used cursor = .ok true := by simpa using hpre 0 (Nat.succ_pos n)
      have hpre' : ∀ i, i < n → used (portStep^[i] (portStep cursor)) = .ok true := by
        intro i hi
        have := hpre (i + 1) (Nat.succ_lt_succ hi)
        rwa [Function.iterate_succ_apply] at this
      have herr' : used (portStep^[n] (portStep cursor)) = .error e := by
        rwa [Function.iterate_succ_apply] at herr
      have hrec := ih f (portStep cursor) (Nat.lt_of_succ_lt_succ hk) hpre' herr'
      simp [allocLoop, allocAttempt, h0, hrec.1, hrec.2]

theorem allocLoop_ports_iterates (used : Nat → Except SvsmError Bool) :
    ∀ (fuel cursor : Nat),
      (∀ i, i < (allocLoop used cursor fuel).2.2.length →
        (allocLoop used cursor fuel).2.2.get? i = some (portStep^[i] cursor)) ∧
      (allocLoop used cursor fuel).2.1 =
        portStep^[(allocLoop used cursor fuel).2.2.length] cursor := by
  intro fuel
  induction fuel with
  | zero =>
    intro cursor
    exact ⟨by intro i hi; simp [allocLoop] at hi, rfl⟩
  | succ n ih =>
    intro cursor
    cases h : used cursor with
    | error e =>
      refine ⟨?_, ?_⟩
      · intro i hi
        have h1 : i = 0 := by
          simp only [allocLoop, allocAttempt, h, List.length_singleton] at hi
          omega
        subst h1
        simp [allocLoop, allocAttempt, h]
      · simp [allocLoop, allocAttempt, h]
    | ok b =>
      cases b with
      | true =>
        have hih := ih (portStep cursor)
        refine ⟨?_, ?_⟩
        · intro i hi
          simp only [allocLoop, allocAttempt, h, List.length_cons] at hi ⊢
          cases i with
          | zero => simp
          | succ j =>
            simp only [List.get?_cons_succ]
            rw [hih.1 j (Nat.lt_of_succ_lt_succ hi), Function.iterate_succ_apply]
        · simp only [allocLoop, allocAttempt, h, List.length_cons]
          rw [hih.2, ← Function.iterate_succ_apply]
      | false =>
        refine ⟨?_, ?_⟩
        · intro i hi
          have h1 : i = 0 := by
            simp only [allocLoop, allocAttempt, h, List.length_singleton] at hi
            omega
          subst h1
          simp [allocLoop, allocAttempt, h]
        · simp [allocLoop, allocAttempt, h]

theorem allocLoop_ok_mem (used : Nat → Except SvsmError Bool) :
    ∀ (fuel cursor p : Nat), (allocLoop used cursor fuel).1 = .ok p →
      p ∈ (allocLoop used cursor fuel).2.2 := by
  intro fuel
  induction fuel with
  | zero => intro cursor p hp; exact absurd hp (by simp [allocLoop])
  | succ n ih =>
    intro cursor p hp
    cases h : used cursor with
    | error e => simp [allocLoop, allocAttempt, h] at hp
    | ok b =>
      cases b with
      | true =>
        have hp' : (allocLoop used (portStep cursor) n).1 = .ok p := by
          simpa [allocLoop, allocAttempt, h] using hp
        have := ih (portStep cursor) p hp'
        simp [allocLoop, allocAttempt, h]
        exact Or.inr this
      | false =>
        have hp' : p = cursor := by
          have := hp
          simp [allocLoop, allocAttempt, h] at this
          omega
        subst hp'
        simp [allocLoop, allocAttempt, h]

theorem portStep_min (cursor : Nat) (h : VSOCK_MIN_PORT ≤ cursor) :
    VSOCK_MIN_PORT ≤ portStep cursor := by
  unfold portStep
  split
  · exact Nat.le_refl _
  · omega

theorem allocLoop_min_port (used : Nat → Except SvsmError Bool) :
    ∀ (fuel cursor : Nat), VSOCK_MIN_PORT ≤ cursor →
      (∀ p, (allocLoop used cursor fuel).1 = .ok p →
        VSOCK_MIN_PORT ≤ p ∧ used p = .ok false) ∧
      VSOCK_MIN_PORT ≤ (allocLoop used cursor fuel).2.1 := by
  intro fuel
  induction fuel with
  | zero =>
    intro cursor hc
    exact ⟨by intro p hp; exact absurd hp (by simp [allocLoop]), hc⟩
  | succ n ih =>
    intro cursor hc
    cases h : used cursor with
    | error e =>
      refine ⟨?_, ?_⟩
      · intro p hp; simp [allocLoop, allocAttempt, h] at hp
      · simpa [allocLoop, allocAttempt, h] using portStep_min cursor hc
    | ok b =>
      cases b with
      | true =>
        have hm := ih (portStep cursor) (portStep_min cursor hc)
        refine ⟨?_, ?_⟩
        · intro p hp
          exact hm.1 p (by simpa [allocLoop, allocAttempt, h] using hp)
        · simpa [allocLoop, allocAttempt, h] using hm.2
      | false =>
        refine ⟨?_, ?_⟩
        · intro p hp
          have hp' : p = cursor := by
            have := hp
            simp [allocLoop, allocAttempt, h] at this
            omega
          subst hp'
          exact ⟨hc, h⟩
        · simpa [allocLoop, allocAttempt, h] using portStep_min cursor hc

theorem allocSeq_min_port :
    ∀ (oracles : List (Nat → Except SvsmError Bool)) (cursor : Nat),
      VSOCK_MIN_PORT ≤ cursor →
      ∀ x ∈ allocSeq oracles cursor,
        ∀ p, x.2 = .ok p → VSOCK_MIN_PORT ≤ p ∧ x.1 p = .ok false := by
  intro oracles
  induction oracles with
  | nil => intro cursor hc x hx; simp [allocSeq] at hx
  | cons o os ih =>
    intro cursor hc x hx p hp
    have hmin := allocLoop_min_port o MAX_RETRIES cursor hc
    simp only [allocSeq, List.mem_cons] at hx
    cases hx with
    | inl hx =>
      subst hx
      exact hmin.1 p hp
    | inr hx =>
      exact ih ((get_first_free_port o cursor).2.1) hmin.2 x hx p hp

/-! ## Claims -/

/-- C5: the translation from the underlying engine's error space maps the
`ConnectionExists`, `NotConnected` and `PeerSocketShutdown` socket-device
errors to the same-named `VsockError` kinds, and every other engine error
value to `DriverError`. -/
theorem virtio_error_translation :
    vsockErrorFrom (.SocketDeviceError .ConnectionExists) = .ConnectionExists ∧
    vsockErrorFrom (.SocketDeviceError .NotConnected) = .NotConnected ∧
    vsockErrorFrom (.SocketDeviceError .PeerSocketShutdown) = .PeerSocketShutdown ∧
    ∀ e : VirtioDriversError,
      e ≠ .SocketDeviceError .ConnectionExists →
      e ≠ .SocketDeviceError .NotConnected →
      e ≠ .SocketDeviceError .PeerSocketShutdown →
      vsockErrorFrom e = .DriverError := by
  refine ⟨rfl, rfl, rfl, ?_⟩
  intro e h1 h2 h3
  cases e with
  | SocketDeviceError se =>
    cases se with
    | ConnectionExists => exact absurd rfl h1
    | NotConnected => exact absurd rfl h2
    | PeerSocketShutdown => exact absurd rfl h3
    | Other c => rfl
  | Other c => rfl

/-- Witness for C5 at a concrete unrecognized engine error. -/
theorem virtio_error_translation_witness :
    vsockErrorFrom (.SocketDeviceError (.Other 0)) = .DriverError :=
  virtio_error_translation.2.2.2 (.SocketDeviceError (.Other 0))
    (by decide) (by decide) (by decide)

/-- C4: if every candidate port queried is reported used (`Ok(true)`),
`get_first_free_port` fails with `NoPortsAvailable` after exactly 5
candidate checks (the retry bound `MAX_RETRIES`). -/
theorem all_ports_used_noports_after_five (used : Nat → Except SvsmError Bool)
    (cursor : Nat) (h : ∀ p, used p = .ok true) :
    (get_first_free_port used cursor).1 = .error (.Vsock .NoPortsAvailable) ∧
    (get_first_free_port used cursor).2.2.length = 5 :=
  allocLoop_all_used used h 5 cursor

/-- Witness for C4 with the all-used oracle, starting from the minimum port. -/
theorem all_ports_used_noports_witness :
    (get_first_free_port (fun _ => Except.ok true) 1024).1 =
      .error (.Vsock .NoPortsAvailable) ∧
    (get_first_free_port (fun _ => Except.ok true) 1024).2.2.length = 5 :=
  all_ports_used_noports_after_five (fun _ => Except.ok true) 1024 (fun _ => rfl)

/-- C10: if an `is_local_port_used` query itself errors during an
allocation attempt, `get_first_free_port` returns that error as-is and
abandons the remaining retries (the query log stops at that attempt). -/
theorem port_query_error_propagated (used : Nat → Except SvsmError Bool)
    (cursor k : Nat) (e : SvsmError) (hk : k < MAX_RETRIES)
    (hpre : ∀ i, i < k → used (portStep^[i] cursor) = .ok true)
    (herr : used (portStep^[k] cursor) = .error e) :
    (get_first_free_port used cursor).1 = .error e ∧
    (get_first_free_port used cursor).2.2.length = k + 1 :=
  allocLoop_query_error used e k MAX_RETRIES cursor hk hpre herr

/-- Witness for C10: the third query errors; the error is returned as-is
after exactly three checks. -/
theorem port_query_error_witness :
    (get_first_free_port
        (fun p => if p = 1026 then Except.error (SvsmError.Other 7) else Except.ok true)
        1024).1 = .error (.Other 7) ∧
    (get_first_free_port
        (fun p => if p = 1026 then Except.error (SvsmError.Other 7) else Except.ok true)
        1024).2.2.length = 3 :=
  port_query_error_propagated
    (fun p => if p = 1026 then Except.error (SvsmError.Other 7) else Except.ok true)
    1024 2 (SvsmError.Other 7) (by decide) (by decide) (by decide)

/-- C2 counterexample: with an all-free oracle and the cursor at 1024, the
allocator returns candidate 1024 — the previous (pre-step) cursor value —
while the advanced (post-step) value is 1025; so the candidate checked and
returned is not the advanced value as the claim states. -/
theorem alloc_candidate_poststep_refuted :
    (get_first_free_port (fun _ => Except.ok false) 1024).1 = .ok 1024 ∧
    portStep 1024 = 1025 ∧
    (get_first_free_port (fun _ => Except.ok false) 1024).1 ≠ .ok (portStep 1024) := by
  decide

/-- C2 (amended): each allocation attempt atomically advances the cursor by
the step — `min_port` if the current value is at or past `u32::MAX - 1`,
else current value + 1 — but the candidate checked and possibly returned is
the previous (pre-step) cursor value returned by `fetch_update`: the `i`-th
candidate queried is the `i`-fold step of the initial cursor, the final
cursor is the step applied once per query, and any returned port is one of
the queried candidates. -/
theorem alloc_step_and_prestep_candidate (used : Nat → Except SvsmError Bool)
    (cursor fuel : Nat) :
    (allocAttempt cursor).1 = cursor ∧
    (allocAttempt cursor).2 = portStep cursor ∧
    (U32_MAX - 1 ≤ cursor → portStep cursor = VSOCK_MIN_PORT) ∧
    (cursor < U32_MAX - 1 → portStep cursor = cursor + 1) ∧
    (∀ i, i < (allocLoop used cursor fuel).2.2.length →
      (allocLoop used cursor fuel).2.2.get? i = some (portStep^[i] cursor)) ∧
    (allocLoop used cursor fuel).2.1 =
      portStep^[(allocLoop used cursor fuel).2.2.length] cursor ∧
    (∀ p, (allocLoop used cursor fuel).1 = .ok p →
      p ∈ (allocLoop used cursor fuel).2.2) := by
  refine ⟨rfl, rfl, ?_, ?_, (allocLoop_ports_iterates used fuel cursor).1,
    (allocLoop_ports_iterates used fuel cursor).2, allocLoop_ok_mem used fuel cursor⟩
  · intro h; simp [portStep, h]
  · intro h; simp [portStep, Nat.not_le_of_lt h]

/-- Witness for the amended C2: one attempt from cursor 1024 queries
candidate 1024 (the pre-step value) and steps the cursor to 1025. -/
theorem alloc_step_prestep_witness :
    (allocLoop (fun _ => Except.ok false) 1024 5).2.2.get? 0 =
      some (portStep^[0] 1024) ∧
    portStep 1024 = 1024 + 1 ∧
    (1024 : Nat) ∈ (allocLoop (fun _ => Except.ok false) 1024 5).2.2 :=
  ⟨(alloc_step_and_prestep_candidate (fun _ => Except.ok false) 1024 5).2.2.2.2.1
      0 (by decide),
    (alloc_step_and_prestep_candidate (fun _ => Except.ok false) 1024 5).2.2.2.1
      (by decide),
    (alloc_step_and_prestep_candidate (fun _ => Except.ok false) 1024 5).2.2.2.2.2.2
      1024 (by decide)⟩

/-- C7: for every sequence of `get_first_free_port` calls starting from a
cursor initialized to the minimum port, every port the allocator returns is
at least 1024 and that call's transport oracle reported it unbound. -/
theorem alloc_sequence_min_port_and_unbound
    (oracles : List (Nat → Except SvsmError Bool))
    (x : (Nat → Except SvsmError Bool) × Except SvsmError Nat)
    (hx : x ∈ allocSeq oracles VSOCK_MIN_PORT) :
    ∀ p, x.2 = .ok p → VSOCK_MIN_PORT ≤ p ∧ x.1 p = .ok false :=
  allocSeq_min_port oracles VSOCK_MIN_PORT (Nat.le_refl _) x hx

/-- Witness for C7: a one-call sequence with an all-free oracle returns
port 1024, which is at least the minimum and was reported unbound. -/
theorem alloc_sequence_min_port_witness :
    VSOCK_MIN_PORT ≤ 1024 ∧
    (fun (_ : Nat) => (Except.ok false : Except SvsmError Bool)) 1024 =
      .ok false :=
  alloc_sequence_min_port_and_unbound
    [fun _ => Except.ok false]
    (fun _ => Except.ok false, Except.ok 1024)
    (List.Mem.head _) 1024 rfl

/-- C9: `send` makes a single locked submission of the entire buffer to the
device; on device success it returns exactly the full buffer length (no
partial-send path), and on device error the translated error. -/
theorem send_single_submission_full_length
    (devSend : List Nat → Except VirtioDriversError Unit) (buffer : List Nat) :
    (vsockSend devSend buffer).2 = [buffer] ∧
    (∀ u, devSend buffer = .ok u → (vsockSend devSend buffer).1 = .ok buffer.length) ∧
    (∀ n, (vsockSend devSend buffer).1 = .ok n → n = buffer.length) ∧
    (∀ e, devSend buffer = .error e →
      (vsockSend devSend buffer).1 = .error (.Vsock (vsockErrorFrom e))) := by
  cases h : devSend buffer with
  | error e => simp [vsockSend, h]
  | ok u => simp [vsockSend, h]

/-- Witness for C9 on a concrete three-byte buffer. -/
theorem send_full_length_witness :
    (vsockSend (fun _ => Except.ok ()) [10, 20, 30]).1 = .ok 3 :=
  (send_single_submission_full_length (fun _ => Except.ok ()) [10, 20, 30]).2.1 () rfl

/-- In a wellformed trace (each drain bounded by the remaining capacity),
the recv loop never returns a count above the buffer length. -/
theorem recvLoop_le (bufLen : Nat) :
    ∀ (trace : List RecvIter) (total : Nat), total ≤ bufLen →
      traceBounded bufLen total trace = true →
      ∀ n, (recvLoop bufLen total trace).1 = .ok n → n ≤ bufLen := by
  intro trace
  induction trace with
  | nil => intro total ht hb n hn; simp [recvLoop] at hn
  | cons it rest ih =>
    intro total ht hb n hn
    cases hd : it.drain with
    | error e =>
      simp only [recvLoop, hd] at hn
      split at hn
      · cases hn; exact ht
      · cases hn
    | ok r =>
      simp only [traceBounded, hd, Bool.and_eq_true, decide_eq_true_eq] at hb
      have hr : total + r ≤ bufLen := by omega
      cases hc : it.credit with
      | error ce =>
        simp only [recvLoop, hd, hc] at hn
        cases hn
        exact hr
      | ok cu =>
        by_cases hf : total + r = bufLen
        · simp only [recvLoop, hd, hc, hf, if_pos] at hn
          cases hn
          omega
        · cases hw : it.wait with
          | error we => simp [recvLoop, hd, hc, hf, hw] at hn
          | ok wu =>
            simp only [recvLoop, hd, hc, hf, hw, if_neg] at hn
            exact ih (total + r) hr hb.2 n hn

/-- C1: with each device drain writing at most the remaining capacity of
the destination slice, `recv` never returns a count above the buffer
length; and when a drain fails it returns the accumulated count as `Ok` if
any bytes were collected, else the translated error. -/
theorem recv_count_bounded_and_partial_ok (bufLen : Nat) (trace : List RecvIter)
    (hb : traceBounded bufLen 0 trace = true) :
    (∀ n, (vsockRecv bufLen trace).1 = .ok n → n ≤ bufLen) ∧
    (∀ (total : Nat) (it : RecvIter) (rest : List RecvIter) (e : VirtioDriversError),
      it.drain = .error e →
      (recvLoop bufLen total (it :: rest)).1 =
        if 0 < total then .ok total else .err (.Vsock (vsockErrorFrom e))) := by
  constructor
  · exact recvLoop_le bufLen trace 0 (Nat.zero_le _) hb
  · intro total it rest e hd
    simp [recvLoop, hd]

/-- Witness for C1: a 4-byte buffer filled by two 2-byte drains returns
exactly 4, which is at most 4. -/
theorem recv_count_bounded_witness :
    (vsockRecv 4 [⟨Except.ok 2, Except.ok (), Except.ok ()⟩,
        ⟨Except.ok 2, Except.ok (), Except.ok ()⟩]).1 = Outcome.ok 4 ∧
    4 ≤ 4 :=
  ⟨rfl,
    (recv_count_bounded_and_partial_ok 4
        [⟨Except.ok 2, Except.ok (), Except.ok ()⟩,
         ⟨Except.ok 2, Except.ok (), Except.ok ()⟩] rfl).1 4 rfl⟩

/-- C3: in every recv iteration whose device drain succeeds, a credit
update is issued; the loop stops and returns the accumulated total exactly
when the credit update fails or the buffer is completely filled; otherwise
it waits for the next device event and retries (a failing wait surfaces the
translated error instead). -/
theorem recv_credit_update_and_stop (bufLen total r : Nat) (it : RecvIter)
    (rest : List RecvIter) (hd : it.drain = .ok r) :
    DevOp.credit ∈ (recvLoop bufLen total (it :: rest)).2 ∧
    (∀ e, it.credit = .error e →
      recvLoop bufLen total (it :: rest) =
        (.ok (total + r), [.drain (bufLen - total), .credit])) ∧
    (it.credit = .ok () → total + r = bufLen →
      recvLoop bufLen total (it :: rest) =
        (.ok (total + r), [.drain (bufLen - total), .credit])) ∧
    (it.credit = .ok () → total + r ≠ bufLen →
      DevOp.wait ∈ (recvLoop bufLen total (it :: rest)).2 ∧
      (it.wait = .ok () →
        (recvLoop bufLen total (it :: rest)).1 =
          (recvLoop bufLen (total + r) rest).1) ∧
      (∀ e, it.wait = .error e →
        (recvLoop bufLen total (it :: rest)).1 =
          .err (.Vsock (vsockErrorFrom e)))) := by
  cases hc : it.credit with
  | error ce =>
    refine ⟨by simp [recvLoop, hd, hc], ?_, ?_, ?_⟩
    · intro e he
      injection he with h
      subst h
      simp [recvLoop, hd, hc]
    · intro hok; cases hok
    · intro hok; cases hok
  | ok cu =>
    cases cu
    refine ⟨?_, ?_, ?_, ?_⟩
    · by_cases hf : total + r = bufLen
      · simp [recvLoop, hd, hc, hf]
      · cases hw : it.wait with
        | error we => simp [recvLoop, hd, hc, hf, hw]
        | ok wu => cases wu; simp [recvLoop, hd, hc, hf, hw]
    · intro e he; cases he
    · intro _ hf; simp [recvLoop, hd, hc, hf]
    · intro _ hf
      refine ⟨?_, ?_, ?_⟩
      · cases hw : it.wait with
        | error we => simp [recvLoop, hd, hc, hf, hw]
        | ok wu => cases wu; simp [recvLoop, hd, hc, hf, hw]
      · intro hw; simp [recvLoop, hd, hc, hf, hw]
      · intro e hw; simp [recvLoop, hd, hc, hf, hw]

/-- Witness for C3: a successful 1-byte drain into a 4-byte buffer issues a
credit update. -/
theorem recv_credit_update_witness :
    DevOp.credit ∈ (recvLoop 4 0 [⟨Except.ok 1, Except.ok (), Except.ok ()⟩]).2 :=
  (recv_credit_update_and_stop 4 0 1 ⟨Except.ok 1, Except.ok (), Except.ok ()⟩ [] rfl).1

/-- The connect wait/check loop succeeds exactly when the trace splits into
a prefix of wakes whose re-check of this flow reported not-established,
followed by an iteration whose check reports established. -/
theorem connectLoop_ok_iff (addr : VsockAddr) (localPort : Nat) :
    ∀ trace : List ConnIter,
      connectLoop addr localPort trace = .ok ↔
      ∃ pre it post, trace = pre ++ it :: post ∧
        (∀ x ∈ pre, x.wait = .ok () ∧ x.estab addr localPort = .ok false) ∧
        it.wait = .ok () ∧ it.estab addr localPort = .ok true := by
  intro trace
  induction trace with
  | nil =>
    constructor
    · intro h; simp [connectLoop] at h
    · rintro ⟨pre, it, post, heq, -⟩
      exact absurd heq (by simp)
  | cons a rest ih =>
    cases hw : a.wait with
    | error e0 =>
      constructor
      · intro h; simp [connectLoop, hw] at h
      · rintro ⟨pre, it, post, heq, hpre, hit⟩
        cases pre with
        | nil =>
          injection heq with h1 h2
          subst h1
          rw [hw] at hit
          cases hit.1
        | cons x pre' =>
          injection heq with h1 h2
          subst h1
          have := (hpre a (by simp)).1
          rw [hw] at this
          cases this
    | ok u =>
      cases u
      cases he : a.estab addr localPort with
      | error e0 =>
        constructor
        · intro h; simp [connectLoop, hw, he] at h
        · rintro ⟨pre, it, post, heq, hpre, hit⟩
          cases pre with
          | nil =>
            injection heq with h1 h2
            subst h1
            rw [he] at hit
            cases hit.2
          | cons x pre' =>
            injection heq with h1 h2
            subst h1
            have := (hpre a (by simp)).2
            rw [he] at this
            cases this
      | ok b =>
        cases b with
        | true =>
          constructor
          · intro _
            exact ⟨[], a, rest, rfl, by simp, hw, he⟩
          · intro _
            simp [connectLoop, hw, he]
        | false =>
          constructor
          · intro h
            have h' : connectLoop addr localPort rest = .ok := by
              simpa [connectLoop, hw, he] using h
            obtain ⟨pre, it, post, heq, hpre, hit⟩ := ih.mp h'
            refine ⟨a :: pre, it, post, by rw [heq]; simp, ?_, hit⟩
            intro x hx
            rcases List.mem_cons.mp hx with hx | hx
            · subst hx; exact ⟨hw, he⟩
            · exact hpre x hx
          · rintro ⟨pre, it, post, heq, hpre, hit⟩
            cases pre with
            | nil =>
              injection heq with h1 h2
              subst h1
              rw [he] at hit
              cases hit.2
            | cons x pre' =>
              injection heq with h1 h2
              subst h1
              have h' := ih.mpr ⟨pre', it, post, h2, fun y hy => hpre y (by simp [hy]), hit⟩
              simpa [connectLoop, hw, he] using h'

/-- The connect wait/check loop errors exactly when, after a prefix of
wakes whose re-check reported not-established, the wait or the check itself
errors; the returned error is the translated device error. -/
theorem connectLoop_err_iff (addr : VsockAddr) (localPort : Nat) :
    ∀ (trace : List ConnIter) (e : SvsmError),
      connectLoop addr localPort trace = .err e ↔
      ∃ e0, e = .Vsock (vsockErrorFrom e0) ∧
        ∃ pre it post, trace = pre ++ it :: post ∧
          (∀ x ∈ pre, x.wait = .ok () ∧ x.estab addr localPort = .ok false) ∧
          (it.wait = .error e0 ∨
            (it.wait = .ok () ∧ it.estab addr localPort = .error e0)) := by
  intro trace
  induction trace with
  | nil =>
    intro e
    constructor
    · intro h; simp [connectLoop] at h
    · rintro ⟨e0, he, pre, it, post, heq, -⟩
      exact absurd heq (by simp)
  | cons a rest ih =>
    intro e
    cases hw : a.wait with
    | error e0' =>
      constructor
      · intro h
        have h' : COutcome.err (.Vsock (vsockErrorFrom e0')) = .err e := by
          simpa [connectLoop, hw] using h
        injection h' with h1
        exact ⟨e0', h1.symm, [], a, rest, rfl, by simp, Or.inl hw⟩
      · rintro ⟨e0, he, pre, it, post, heq, hpre, hcase⟩
        cases pre with
        | nil =>
          injection heq with h1 h2
          subst h1
          rcases hcase with h | ⟨h, -⟩
          · rw [hw] at h
            injection h with h1
            subst h1
            subst he
            simp [connectLoop, hw]
          · rw [hw] at h
            cases h
        | cons x pre' =>
          injection heq with h1 h2
          subst h1
          have := (hpre a (by simp)).1
          rw [hw] at this
          cases this
    | ok u =>
      cases u
      cases he' : a.estab addr localPort with
      | error e0' =>
        constructor
        · intro h
          have h' : COutcome.err (.Vsock (vsockErrorFrom e0')) = .err e := by
            simpa [connectLoop, hw, he'] using h
          injection h' with h1
          exact ⟨e0', h1.symm, [], a, rest, rfl, by simp, Or.inr ⟨hw, he'⟩⟩
        · rintro ⟨e0, he, pre, it, post, heq, hpre, hcase⟩
          cases pre with
          | nil =>
            injection heq with h1 h2
            subst h1
            rcases hcase with h | ⟨-, h⟩
            · rw [hw] at h
              cases h
            · rw [he'] at h
              injection h with h1
              subst h1
              subst he
              simp [connectLoop, hw, he']
          | cons x pre' =>
            injection heq with h1 h2
            subst h1
            have := (hpre a (by simp)).2
            rw [he'] at this
            cases this
      | ok b =>
        cases b with
        | true =>
          constructor
          · intro h; simp [connectLoop, hw, he'] at h
          · rintro ⟨e0, he, pre, it, post, heq, hpre, hcase⟩
            cases pre with
            | nil =>
              injection heq with h1 h2
              subst h1
              rcases hcase with h | ⟨-, h⟩
              · rw [hw] at h
                cases h
              · rw [he'] at h
                cases h
            | cons x pre' =>
              injection heq with h1 h2
              subst h1
              have := (hpre a (by simp)).2
              rw [he'] at this
              cases this
        | false =>
          constructor
          · intro h
            have h' : connectLoop addr localPort rest = .err e := by
              simpa [connectLoop, hw, he'] using h
            obtain ⟨e0, heq0, pre, it, post, heq, hpre, hcase⟩ := (ih e).mp h'
            refine ⟨e0, heq0, a :: pre, it, post, by rw [heq]; simp, ?_, hcase⟩
            intro x hx
            rcases List.mem_cons.mp hx with hx | hx
            · subst hx; exact ⟨hw, he'⟩
            · exact hpre x hx
          · rintro ⟨e0, heq0, pre, it, post, heq, hpre, hcase⟩
            cases pre with
            | nil =>
              injection heq with h1 h2
              subst h1
              rcases hcase with h | ⟨-, h⟩
              · rw [hw] at h
                cases h
              · rw [he'] at h
                cases h
            | cons x pre' =>
              injection heq with h1 h2
              subst h1
              have h' := (ih e).mpr
                ⟨e0, heq0, pre', it, post, h2, fun y hy => hpre y (by simp [hy]), hcase⟩
              simpa [connectLoop, hw, he'] using h'

/-- C6: `connect` returns `Ok` exactly when, after a successful submission,
some wake's re-check of this specific `(remote_cid, remote_port, local_port)`
flow reports established, every earlier wake having re-checked this same
flow and found it not established; and it returns `Err` exactly when
submitting, waiting, or checking yields a device-level error, returned in
translated form. -/
theorem connect_flow_established_characterization
    (submit : VsockAddr → Nat → Except VirtioDriversError Unit)
    (trace : List ConnIter) (remoteCid localPort remotePort : Nat) :
    (vsockConnect submit trace remoteCid localPort remotePort = .ok ↔
      submit ⟨remoteCid, remotePort⟩ localPort = .ok () ∧
      ∃ pre it post, trace = pre ++ it :: post ∧
        (∀ x ∈ pre, x.wait = .ok () ∧
          x.estab ⟨remoteCid, remotePort⟩ localPort = .ok false) ∧
        it.wait = .ok () ∧
        it.estab ⟨remoteCid, remotePort⟩ localPort = .ok true) ∧
    (∀ e, vsockConnect submit trace remoteCid localPort remotePort = .err e ↔
      ∃ e0, e = .Vsock (vsockErrorFrom e0) ∧
        (submit ⟨remoteCid, remotePort⟩ localPort = .error e0 ∨
          (submit ⟨remoteCid, remotePort⟩ localPort = .ok () ∧
            ∃ pre it post, trace = pre ++ it :: post ∧
              (∀ x ∈ pre, x.wait = .ok () ∧
                x.estab ⟨remoteCid, remotePort⟩ localPort = .ok false) ∧
              (it.wait = .error e0 ∨
                (it.wait = .ok () ∧
                  it.estab ⟨remoteCid, remotePort⟩ localPort = .error e0))))) := by
  cases hs : submit ⟨remoteCid, remotePort⟩ localPort with
  | error es =>
    constructor
    · constructor
      · intro h; simp [vsockConnect, hs] at h
      · rintro ⟨h, -⟩; cases h
    · intro e
      constructor
      · intro h
        have h' : COutcome.err (.Vsock (vsockErrorFrom es)) = .err e := by
          simpa [vsockConnect, hs] using h
        injection h' with h1
        exact ⟨es, h1.symm, Or.inl rfl⟩
      · rintro ⟨e0, he, h | ⟨h, -⟩⟩
        · injection h with h1
          subst h1
          subst he
          simp [vsockConnect, hs]
        · cases h
  | ok su =>
    cases su
    have hv : vsockConnect submit trace remoteCid localPort remotePort =
        connectLoop ⟨remoteCid, remotePort⟩ localPort trace := by
      simp [vsockConnect, hs]
    constructor
    · rw [hv]
      constructor
      · intro h
        exact ⟨rfl, (connectLoop_ok_iff _ _ trace).mp h⟩
      · rintro ⟨-, h⟩
        exact (connectLoop_ok_iff _ _ trace).mpr h
    · intro e
      rw [hv]
      constructor
      · intro h
        obtain ⟨e0, he, hsplit⟩ := (connectLoop_err_iff _ _ trace e).mp h
        exact ⟨e0, he, Or.inr ⟨rfl, hsplit⟩⟩
      · rintro ⟨e0, he, h | ⟨-, hsplit⟩⟩
        · cases h
        · exact (connectLoop_err_iff _ _ trace e).mpr ⟨e0, he, hsplit⟩

/-- Witness for C6: one wake whose re-check reports the flow established
makes `connect` succeed. -/
theorem connect_flow_established_witness :
    vsockConnect (fun _ _ => Except.ok ())
      [⟨Except.ok (), fun _ _ => Except.ok true⟩] 2 1024 5 = .ok :=
  (connect_flow_established_characterization (fun _ _ => Except.ok ())
      [⟨Except.ok (), fun _ _ => Except.ok true⟩] 2 1024 5).1.mpr
    ⟨rfl, [], ⟨Except.ok (), fun _ _ => Except.ok true⟩, [], rfl,
      by simp, rfl, rfl⟩

/-- C8 counterexample: a second initialization while a driver is already
stored is NOT always rejected with an error — when no socket slot is found
it returns `Ok` (a no-op), though the stored driver is indeed kept. -/
theorem second_init_without_slot_returns_ok :
    initialize_vsock none (fun _ => Except.ok 0)
      (some { first_free_port := 1024, transport := 0 }) =
      (Except.ok (), some { first_free_port := 1024, transport := 0 }) := rfl

/-- C8 (amended): `initialize_vsock` returns `Ok` and leaves the registry
empty when no socket slot is found; when a slot is found and driver
construction succeeds on an empty registry, it stores the driver with the
port cursor at `VSOCK_MIN_PORT` (1024) exactly once; a later initialization
never replaces the stored driver — it is rejected with an error whenever a
socket slot is found, and returns `Ok` as a no-op when none is. -/
theorem initialize_vsock_registry_behavior (popSlot : Option MmioSlot)
    (newTransport : MmioSlot → Except SvsmError Nat)
    (cell : Option VsockDriver) :
    VSOCK_MIN_PORT = 1024 ∧
    (cell = none → popSlot = none →
      initialize_vsock popSlot newTransport cell = (.ok (), none)) ∧
    (∀ slot t, cell = none → popSlot = some slot → newTransport slot = .ok t →
      initialize_vsock popSlot newTransport cell =
        (.ok (), some { first_free_port := VSOCK_MIN_PORT, transport := t })) ∧
    (∀ d, cell = some d →
      (initialize_vsock popSlot newTransport cell).2 = some d ∧
      (popSlot = none →
        (initialize_vsock popSlot newTransport cell).1 = .ok ()) ∧
      (∀ slot, popSlot = some slot →
        ∃ e, (initialize_vsock popSlot newTransport cell).1 = .error e)) := by
  refine ⟨rfl, ?_, ?_, ?_⟩
  · rintro rfl rfl
    rfl
  · rintro slot t rfl rfl ht
    simp [initialize_vsock, ht, cellInit]
  · rintro d rfl
    refine ⟨?_, ?_, ?_⟩
    · cases popSlot with
      | none => rfl
      | some slot =>
        cases ht : newTransport slot with
        | error e => simp [initialize_vsock, ht]
        | ok t => simp [initialize_vsock, ht, cellInit]
    · rintro rfl
      rfl
    · rintro slot rfl
      cases ht : newTransport slot with
      | error e => exact ⟨e, by simp [initialize_vsock, ht]⟩
      | ok t => exact ⟨.AlreadyInitialized, by simp [initialize_vsock, ht, cellInit]⟩

/-- Witness for the amended C8: a first initialization that finds a slot
stores the driver with the cursor at the minimum port. -/
theorem initialize_vsock_registry_witness :
    initialize_vsock (some ⟨0⟩) (fun _ => Except.ok 7) none =
      (Except.ok (), some { first_free_port := VSOCK_MIN_PORT, transport := 7 }) :=
  (initialize_vsock_registry_behavior (some ⟨0⟩) (fun _ => Except.ok 7)
      none).2.2.1 ⟨0⟩ 7 rfl rfl rfl

end Vsock
